import Mathlib

/-!
Shallow embedding of `src/tutorial-code/mini-tokio/src/main.rs`, the
mini-tokio executor and timer of the tokio website tutorial code.

Instants (`std::time::Instant`) are modelled as naturals; a waker is
characterised by the task it wakes (the `Arc<Task>` pointer identity used
by `futures::task::waker` and `Waker::will_wake`); channels are FIFO
lists; panics are modelled by `Option`.
-/

namespace MiniTokioModel

/-- Task identifiers: each spawned task harness is identified by its index
in the executor's task arena (model of `Arc<Task>` pointer identity). -/
abbrev TaskId := Nat

/-- Identifier of a channel send handle (model of
`channel::Sender<Arc<Task>>`). -/
abbrev SenderId := Nat

/-- Result of one `Future::poll` step, `std::task::Poll<()>`. -/
inductive Poll where
  | Ready : Poll
  | Pending : Poll
deriving DecidableEq

/-- Model of a `std::task::Waker` created by `futures::task::waker` from an
`Arc<Task>`: characterised by the task it wakes. -/
structure Waker where
  task : TaskId
deriving DecidableEq

/-- `Waker::will_wake`: whether two wakers would wake the same task
(pointer comparison on the underlying `Arc<Task>`). -/
def Waker.will_wake (w cx : Waker) : Bool := w.task == cx.task

/-- Model of the `Delay` future (main.rs:71-77): the absolute deadline
`when` and the optional shared waker slot (`Option<Arc<Mutex<Waker>>>`). -/
structure Delay where
  when : Nat
  waker : Option Waker
deriving DecidableEq

/-- Construction of a `Delay` inside `delay(dur)` (main.rs:124-127):
`Delay { when: Instant::now() + dur, waker: None }`. -/
def mkDelay (now dur : Nat) : Delay := ⟨now + dur, none⟩

/-- Everything one call to `Delay::poll` does: the updated `Delay` state,
whether this call spawned a timer thread, and the returned `Poll`. -/
structure DelayPollOut where
  state : Delay
  spawned : Bool
  result : Poll
deriving DecidableEq

/-- `Delay::poll` (main.rs:83-121), with the wall-clock read
`Instant::now()` of the final deadline comparison passed in as `now`.
If the slot already holds a waker it is replaced by the caller's waker
exactly when `will_wake` fails; if the slot is empty it is filled with a
clone of the caller's waker and the timer thread is spawned.  Finally the
deadline is compared against now: `if Instant::now() >= self.when`. -/
def Delay.poll (d : Delay) (cx : Waker) (now : Nat) : DelayPollOut :=
  match d.waker with
  | some w =>
      let w' := if ¬ w.will_wake cx then cx else w
      { state := { d with waker := some w' }
        spawned := false
        result := if d.when ≤ now then .Ready else .Pending }
  | none =>
      { state := { d with waker := some cx }
        spawned := true
        result := if d.when ≤ now then .Ready else .Pending }

/-- Sleep decision of the timer thread body (main.rs:106-109):
`if now < when { thread::sleep(when - now) }` — the sleep happens iff the
deadline is still in the future at the moment the thread runs. -/
def timerThreadSleeps (w threadNow : Nat) : Bool := decide (threadNow < w)

/-- After the optional sleep the timer thread locks the shared slot and
calls `wake_by_ref` on the stored waker (main.rs:111-113): one send of the
woken task onto that task's executor channel. -/
def timerThreadWake (slot : Waker) (queue : List TaskId) : List TaskId :=
  queue ++ [slot.task]

/-- Number of timer threads spawned over a sequence of `Delay::poll` calls,
threading the `Delay` state; each element of the list is the caller's
waker and the wall-clock instant of that call. -/
def threadsSpawned : Delay → List (Waker × Nat) → Nat
  | _, [] => 0
  | d, (cx, now) :: rest =>
      (if (Delay.poll d cx now).spawned then 1 else 0) +
        threadsSpawned (Delay.poll d cx now).state rest

/-- One task harness (main.rs:137-150): the abstract state of its boxed
future and the stored send half of the executor channel. -/
structure Task where
  tid : TaskId
  future : Nat
  executor : SenderId
deriving DecidableEq

/-- `futures::task::waker(self.clone())` in `Task::poll` (main.rs:196): a
fresh waker bound to this very task. -/
def taskWaker (t : Task) : Waker := ⟨t.tid⟩

/-- `Task::poll` (main.rs:194-204).  `step` is the semantics of the stored
future, taking the future state and the waker in the `Context` to the next
future state and the step's `Poll` result.  `contended` models whether
another thread currently holds the future mutex: `try_lock().unwrap()`
panics (`none`) in that case; otherwise one step of the future runs with
the fresh waker and its `Poll` result is discarded (`let _ = ...`). -/
def Task.poll (step : Nat → Waker → Nat × Poll) (contended : Bool)
    (t : Task) : Option Task :=
  if contended then none
  else some { t with future := (step t.future (taskWaker t)).1 }

/-- Global state of the mini-tokio executor: the thread-local `CURRENT`
binding (main.rs:131-134), the channel contents (FIFO ready queue) and the
task arena — a task's id is its index, each entry holding the future state
and the send handle stored in the harness. -/
structure ExecState where
  current : Option SenderId
  queue : List TaskId
  tasks : List (Nat × SenderId)
deriving DecidableEq

/-- `ArcWake::wake_by_ref` for `Task` (main.rs:207-213): send one clone of
the task onto its executor channel; nothing else changes. -/
def wakeByRef (t : TaskId) (s : ExecState) : ExecState :=
  { s with queue := s.queue ++ [t] }

/-- `Task::spawn(future, sender)` (main.rs:180-191): allocate the harness
holding the given send handle and send it once onto the channel. -/
def Task.spawn (fut : Nat) (sender : SenderId) (s : ExecState) : ExecState :=
  { s with tasks := s.tasks ++ [(fut, sender)]
           queue := s.queue ++ [s.tasks.length] }

/-- The free-standing `spawn` entry point (main.rs:39-48): read the
thread-local `CURRENT` binding; `unwrap()` panics (`none`) when it is
unset, otherwise delegate to `Task::spawn` with the bound send handle. -/
def spawn (fut : Nat) (s : ExecState) : Option ExecState :=
  match s.current with
  | none => none
  | some sender => some (Task.spawn fut sender s)

/-- Resuming the received task inside the run loop: look it up in the
arena and run one uncontended `Task::poll` step on its future. -/
def ExecState.pollTask (step : Nat → Waker → Nat × Poll) (tid : TaskId)
    (s : ExecState) : ExecState :=
  match s.tasks.get? tid with
  | none => s
  | some fe => { s with tasks := s.tasks.set tid ((step fe.1 ⟨tid⟩).1, fe.2) }

/-- The `while let Ok(task) = self.scheduled.recv() { task.poll(); }` loop
of `MiniTokio::run` (main.rs:175-177), fuel-indexed.  `recv` on a
non-empty queue yields the head (FIFO); on an empty queue it blocks while
some sender is alive and returns `Err` — ending the `while let` — only
once every sender is gone.  The boolean output records whether the loop
exited through that `Err` (as opposed to running out of fuel or staying
blocked). -/
def runLoop (step : Nat → Waker → Nat × Poll) (sendersAlive : Bool) :
    Nat → ExecState → ExecState × Bool
  | 0, s => (s, false)
  | fuel + 1, s =>
      match s.queue with
      | [] => (s, !sendersAlive)
      | t :: rest =>
          runLoop step sendersAlive fuel
            (ExecState.pollTask step t { s with queue := rest })

/-- `MiniTokio::run` (main.rs:168-177): first set the `CURRENT`
thread-local to this executor's send half, then enter the receive loop.
Because `&self` retains `self.sender`, a sender is alive throughout the
loop, hence `sendersAlive := true`. -/
def run (step : Nat → Waker → Nat × Poll) (sender : SenderId) (fuel : Nat)
    (s : ExecState) : ExecState × Bool :=
  runLoop step true fuel { s with current := some sender }

/-! Helper lemmas shared by the claim theorems. -/

theorem delay_poll_slot_isSome (d : Delay) (cx : Waker) (now : Nat) :
    (Delay.poll d cx now).state.waker.isSome = true := by
  cases hw : d.waker <;> simp [Delay.poll, hw]

theorem delay_poll_spawned_of_some (d : Delay) (cx : Waker) (now : Nat)
    (h : d.waker.isSome = true) : (Delay.poll d cx now).spawned = false := by
  cases hw : d.waker
  · rw [hw] at h; simp at h
  · simp [Delay.poll, hw]

theorem threadsSpawned_of_some (polls : List (Waker × Nat)) :
    ∀ d : Delay, d.waker.isSome = true → threadsSpawned d polls = 0 := by
  induction polls with
  | nil => intro d _; rfl
  | cons p rest ih =>
      intro d h
      obtain ⟨cx, now⟩ := p
      simp [threadsSpawned, delay_poll_spawned_of_some d cx now h,
        ih _ (delay_poll_slot_isSome d cx now)]

theorem pollTask_current (step : Nat → Waker → Nat × Poll) (tid : TaskId)
    (s : ExecState) : (ExecState.pollTask step tid s).current = s.current := by
  unfold ExecState.pollTask
  cases s.tasks.get? tid <;> rfl

theorem runLoop_current (step : Nat → Waker → Nat × Poll)
    (sendersAlive : Bool) (fuel : Nat) : ∀ s : ExecState,
    ((runLoop step sendersAlive fuel s).1).current = s.current := by
  induction fuel with
  | zero => intro s; rfl
  | succ n ih =>
      intro s
      cases hq : s.queue with
      | nil => simp [runLoop, hq]
      | cons t rest =>
          simp [runLoop, hq, ih, pollTask_current]

theorem runLoop_no_exit (step : Nat → Waker → Nat × Poll) (fuel : Nat) :
    ∀ s : ExecState, (runLoop step true fuel s).2 = false := by
  induction fuel with
  | zero => intro s; rfl
  | succ n ih =>
      intro s
      cases hq : s.queue with
      | nil => simp [runLoop, hq]
      | cons t rest => simp [runLoop, hq, ih]

/-! Claim theorems. -/

/-- C1: an evaluation of `Delay::poll` returns `Ready` iff the wall-clock
instant at the deadline check is at or past the deadline `when`; the
returned `Poll` is the same whatever the waker slot holds, so it does not
depend on the waker bookkeeping. -/
theorem delay_ready_iff_deadline (d : Delay) (cx : Waker) (now : Nat) :
    ((Delay.poll d cx now).result = .Ready ↔ d.when ≤ now)
    ∧ (∀ o : Option Waker,
        (Delay.poll { d with waker := o } cx now).result
          = (Delay.poll d cx now).result) := by
  constructor
  · cases hw : d.waker <;> simp only [Delay.poll, hw] <;>
      by_cases h : d.when ≤ now <;> simp [h]
  · intro o
    cases hw : d.waker <;> cases o <;> simp [Delay.poll, hw]

/-- C1 witness: a `Delay` with deadline 5, polled at instant 7 with an
empty slot, reports ready. -/
theorem delay_ready_iff_deadline_witness :
    (Delay.poll ⟨5, none⟩ ⟨0⟩ 7).result = .Ready :=
  (delay_ready_iff_deadline ⟨5, none⟩ ⟨0⟩ 7).1.mpr (by decide)

/-- C2: a timer thread is spawned by an evaluation exactly when the waker
slot is empty; every evaluation leaves the slot filled; hence over any
sequence of evaluations of a freshly constructed `Delay` at most one timer
thread is ever spawned. -/
theorem delay_at_most_one_timer_thread :
    (∀ (d : Delay) (cx : Waker) (now : Nat),
        ((Delay.poll d cx now).spawned = true ↔ d.waker = none))
    ∧ (∀ (d : Delay) (cx : Waker) (now : Nat),
        (Delay.poll d cx now).state.waker.isSome = true)
    ∧ (∀ (now0 dur : Nat) (polls : List (Waker × Nat)),
        threadsSpawned (mkDelay now0 dur) polls ≤ 1) := by
  refine ⟨?_, delay_poll_slot_isSome, ?_⟩
  · intro d cx now
    cases hw : d.waker <;> simp [Delay.poll, hw]
  · intro now0 dur polls
    cases polls with
    | nil => simp [threadsSpawned]
    | cons p rest =>
        obtain ⟨cx, now⟩ := p
        have hrest := threadsSpawned_of_some rest
          (Delay.poll (mkDelay now0 dur) cx now).state
          (delay_poll_slot_isSome (mkDelay now0 dur) cx now)
        simp [threadsSpawned, hrest]
        split <;> simp

/-- C2 witness: the first evaluation of a fresh `Delay` spawns the timer
thread, and two evaluations of a fresh `Delay` spawn exactly one. -/
theorem delay_at_most_one_timer_thread_witness :
    (Delay.poll (mkDelay 0 3) ⟨0⟩ 1).spawned = true
    ∧ threadsSpawned (mkDelay 0 3) [(⟨0⟩, 1), (⟨0⟩, 4)] ≤ 1 :=
  ⟨(delay_at_most_one_timer_thread.1 (mkDelay 0 3) ⟨0⟩ 1).mpr rfl,
   delay_at_most_one_timer_thread.2.2 0 3 [(⟨0⟩, 1), (⟨0⟩, 4)]⟩

/-- C3: invoking a task's waker sends exactly one reference to that same
task onto the ready queue of the executor that spawned it and does nothing
else: the task arena and the `CURRENT` binding are untouched, the count of
that task in the queue grows by exactly one, and the count of every other
task is unchanged. -/
theorem waker_enqueues_exactly_once (t : TaskId) (s : ExecState) :
    (wakeByRef t s).queue = s.queue ++ [t]
    ∧ (wakeByRef t s).tasks = s.tasks
    ∧ (wakeByRef t s).current = s.current
    ∧ (wakeByRef t s).queue.count t = s.queue.count t + 1
    ∧ (∀ u : TaskId, u ≠ t →
        (wakeByRef t s).queue.count u = s.queue.count u) := by
  refine ⟨rfl, rfl, rfl, ?_, ?_⟩
  · simp [wakeByRef, List.count_append]
  · intro u hu
    simp [wakeByRef, List.count_append, List.count_singleton', hu]

/-- C3 witness: waking task 5 on a queue already holding task 5 leaves the
count of task 6 unchanged. -/
theorem waker_enqueues_exactly_once_witness :
    (wakeByRef 5 ⟨none, [5], []⟩).queue.count 6
      = (⟨none, [5], []⟩ : ExecState).queue.count 6 :=
  (waker_enqueues_exactly_once 5 ⟨none, [5], []⟩).2.2.2.2 6 (by decide)

/-- C4: on an evaluation after the first (slot non-empty) of a still
incomplete `Delay`, the recorded waker is replaced by the caller's waker
exactly when `will_wake` fails, and kept when it holds; no thread is
spawned and the evaluation reports pending. -/
theorem delay_waker_replacement (d : Delay) (w cx : Waker) (now : Nat)
    (h : d.waker = some w) (hp : now < d.when) :
    (w.will_wake cx = false → (Delay.poll d cx now).state.waker = some cx)
    ∧ (w.will_wake cx = true → (Delay.poll d cx now).state.waker = some w)
    ∧ (Delay.poll d cx now).spawned = false
    ∧ (Delay.poll d cx now).result = .Pending := by
  refine ⟨?_, ?_, ?_, ?_⟩
  · intro hf; simp [Delay.poll, h, hf]
  · intro ht; simp [Delay.poll, h, ht]
  · simp [Delay.poll, h]
  · simp [Delay.poll, h, not_le.mpr hp]

/-- C4 witness: a `Delay` with deadline 10 whose slot holds the waker of
task 0, polled at instant 3 from task 1, stores task 1's waker. -/
theorem delay_waker_replacement_witness :
    (⟨10, some ⟨0⟩⟩ : Delay).waker = some ⟨0⟩ ∧ (3 : Nat) < 10
    ∧ (Delay.poll ⟨10, some ⟨0⟩⟩ ⟨1⟩ 3).state.waker = some ⟨1⟩ :=
  ⟨rfl, by decide,
   (delay_waker_replacement ⟨10, some ⟨0⟩⟩ ⟨0⟩ ⟨1⟩ 3 rfl (by decide)).1
     (by decide)⟩

/-- C5: a `Delay` whose deadline has already passed at its first
evaluation reports ready on that evaluation, and the timer thread's sleep
is skipped at every instant from then on, the deadline having passed. -/
theorem delay_past_deadline_ready_no_sleep (d : Delay) (cx : Waker)
    (now : Nat) (h0 : d.waker = none) (hd : d.when ≤ now) :
    (Delay.poll d cx now).result = .Ready
    ∧ (∀ threadNow : Nat, now ≤ threadNow →
        timerThreadSleeps d.when threadNow = false) := by
  constructor
  · simp [Delay.poll, h0, hd]
  · intro threadNow ht
    simp only [timerThreadSleeps, decide_eq_false_iff_not, not_lt]
    omega

/-- C5 witness: a fresh `Delay` with deadline 2 polled at instant 5 is
ready, and its timer thread running at instant 7 does not sleep. -/
theorem delay_past_deadline_ready_no_sleep_witness :
    (Delay.poll ⟨2, none⟩ ⟨0⟩ 5).result = .Ready
    ∧ timerThreadSleeps 2 7 = false :=
  ⟨(delay_past_deadline_ready_no_sleep ⟨2, none⟩ ⟨0⟩ 5 rfl (by decide)).1,
   (delay_past_deadline_ready_no_sleep ⟨2, none⟩ ⟨0⟩ 5 rfl (by decide)).2 7
     (by decide)⟩

/-- C6: the free-standing `spawn` panics when the thread's `CURRENT`
binding is unset; when it is set, it wraps the computation in a task
holding the bound send handle, appends it to the arena and enqueues it
exactly once. -/
theorem spawn_requires_current_binding (fut : Nat) (s : ExecState) :
    (s.current = none → spawn fut s = none)
    ∧ (∀ sender : SenderId, s.current = some sender →
        spawn fut s = some { s with tasks := s.tasks ++ [(fut, sender)]
                                    queue := s.queue ++ [s.tasks.length] }) := by
  constructor
  · intro h; simp [spawn, h]
  · intro sender h; simp [spawn, h, Task.spawn]

/-- C6 witness: spawning with the binding unset panics; with the binding
set to sender 3 it enqueues the single new task 0 wrapping future 7 with
handle 3. -/
theorem spawn_requires_current_binding_witness :
    spawn 7 ⟨none, [], []⟩ = none
    ∧ spawn 7 ⟨some 3, [], []⟩ = some ⟨some 3, [0], [(7, 3)]⟩ :=
  ⟨(spawn_requires_current_binding 7 ⟨none, [], []⟩).1 rfl,
   (spawn_requires_current_binding 7 ⟨some 3, [], []⟩).2 3 rfl⟩

/-- C7: resuming a task constructs a fresh waker bound to that same task,
advances the future by exactly one step with that waker, and discards the
step's `Poll` result: the outcome is the same for any future semantics
agreeing on the next state. -/
theorem task_resume_fresh_waker_discards_result
    (step : Nat → Waker → Nat × Poll) (t : Task) :
    Task.poll step false t
      = some { t with future := (step t.future (taskWaker t)).1 }
    ∧ (taskWaker t).task = t.tid
    ∧ (∀ step2 : Nat → Waker → Nat × Poll,
        (∀ (f : Nat) (w : Waker), (step f w).1 = (step2 f w).1) →
        Task.poll step false t = Task.poll step2 false t) := by
  refine ⟨rfl, rfl, ?_⟩
  intro step2 h
  simp [Task.poll, h]

/-- C7 witness: two future semantics that agree on the next state but
return opposite `Poll` results resume task 0 identically. -/
theorem task_resume_fresh_waker_discards_result_witness :
    Task.poll (fun f _ => (f + 1, Poll.Pending)) false ⟨0, 0, 0⟩
      = Task.poll (fun f _ => (f + 1, Poll.Ready)) false ⟨0, 0, 0⟩ :=
  (task_resume_fresh_waker_discards_result
      (fun f _ => (f + 1, Poll.Pending)) ⟨0, 0, 0⟩).2.2
    (fun f _ => (f + 1, Poll.Ready)) (fun _ _ => rfl)

/-- C8: resuming a task whose future mutex is contended fails loudly
(`try_lock().unwrap()` panics, modelled by `none`) instead of blocking or
proceeding; uncontended resumption always succeeds. -/
theorem task_resume_contention_fails_loudly
    (step : Nat → Waker → Nat × Poll) (t : Task) :
    Task.poll step true t = none
    ∧ (Task.poll step false t).isSome = true :=
  ⟨rfl, rfl⟩

/-- C9: `run` sets the `CURRENT` binding to the executor's send handle
before any loop iteration and the binding persists; each iteration with a
non-empty queue resumes the head task first (FIFO); and with the
executor's own sender alive the loop never exits through a closed
channel, whatever the fuel. -/
theorem run_binds_current_then_loops_fifo_forever
    (step : Nat → Waker → Nat × Poll) (sender : SenderId) (fuel : Nat)
    (s : ExecState) :
    ((run step sender fuel s).1).current = some sender
    ∧ (run step sender 0 s).1 = { s with current := some sender }
    ∧ (∀ (cur : Option SenderId) (t : TaskId) (rest : List TaskId)
          (tasks : List (Nat × SenderId)),
        runLoop step true (fuel + 1) ⟨cur, t :: rest, tasks⟩
          = runLoop step true fuel
              (ExecState.pollTask step t ⟨cur, rest, tasks⟩))
    ∧ (run step sender fuel s).2 = false := by
  refine ⟨?_, rfl, ?_, ?_⟩
  · unfold run
    rw [runLoop_current]
  · intro cur t rest tasks
    rfl
  · unfold run
    exact runLoop_no_exit step fuel _

/-- C10: even with the deadline already past at the first evaluation, that
evaluation still stores the caller's waker and still spawns the timer
thread, while reporting ready; the thread then wakes the stored waker,
appending exactly one redundant reference to the caller's task onto the
queue. -/
theorem delay_past_deadline_redundant_wake (d : Delay) (cx : Waker)
    (now : Nat) (q : List TaskId) (h0 : d.waker = none)
    (hd : d.when ≤ now) :
    (Delay.poll d cx now).result = .Ready
    ∧ (Delay.poll d cx now).spawned = true
    ∧ (Delay.poll d cx now).state.waker = some cx
    ∧ timerThreadWake cx q = q ++ [cx.task]
    ∧ (timerThreadWake cx q).length = q.length + 1 := by
  refine ⟨?_, ?_, ?_, rfl, ?_⟩
  · simp [Delay.poll, h0, hd]
  · simp [Delay.poll, h0]
  · simp [Delay.poll, h0]
  · simp [timerThreadWake]

/-- C10 witness: a fresh `Delay` with deadline 2 polled at instant 5 from
task 4 is ready, spawned the thread, stored task 4's waker, and the thread
appends one reference to task 4 onto the empty queue. -/
theorem delay_past_deadline_redundant_wake_witness :
    (Delay.poll ⟨2, none⟩ ⟨4⟩ 5).result = .Ready
    ∧ (Delay.poll ⟨2, none⟩ ⟨4⟩ 5).spawned = true
    ∧ (Delay.poll ⟨2, none⟩ ⟨4⟩ 5).state.waker = some ⟨4⟩
    ∧ timerThreadWake ⟨4⟩ [] = [4] :=
  ⟨(delay_past_deadline_redundant_wake ⟨2, none⟩ ⟨4⟩ 5 [] rfl (by decide)).1,
   (delay_past_deadline_redundant_wake ⟨2, none⟩ ⟨4⟩ 5 [] rfl (by decide)).2.1,
   (delay_past_deadline_redundant_wake ⟨2, none⟩ ⟨4⟩ 5 [] rfl
     (by decide)).2.2.1,
   (delay_past_deadline_redundant_wake ⟨2, none⟩ ⟨4⟩ 5 [] rfl
     (by decide)).2.2.2.1⟩

end MiniTokioModel
